import Mathlib

/-!
Verification of `srgan.py` (SRGAN training and evaluation script).

The Keras layer graphs built by `build_generator` / `build_discriminator` are
embedded as an inductive type of layer expressions with a shape semantics
(`outShape`) matching Keras' output-shape rules for `padding='same'`
convolutions, `UpSampling2D` and `Dense`.  The training loop `train` is
embedded as a recursive function producing, per epoch, the ordered list of
`train_on_batch` calls together with the sampling/weight-saving decisions;
the external collaborators (data loader, `predict`, the metric functions
`psnr`/`ssim`) are parameters.  Numeric pixel arithmetic is over `ℚ` (the
script's float expressions are exact dyadic constants) and activations over
`ℝ`.
-/

namespace SRGAN

/-- Activation functions used in the script (`None` means linear). -/
inductive Act where
  | linear
  | relu
  | tanh
  | sigmoid
  deriving DecidableEq, Repr

/-- Shape of one sample: height, width, channels. -/
structure Shape3 where
  h : Nat
  w : Nat
  c : Nat
  deriving DecidableEq, Repr

/-- Keras layer expressions: exactly the layer kinds appearing in
`build_generator` and `build_discriminator`.  `conv2d` carries filters,
kernel size, strides, whether padding is `'same'`, and the activation. -/
inductive LayerExpr where
  | input (s : Shape3)
  | conv2d (filters ksize strides : Nat) (same : Bool) (act : Act) (x : LayerExpr)
  | activation (a : Act) (x : LayerExpr)
  | batchNorm (x : LayerExpr)
  | upSampling2 (x : LayerExpr)
  | leakyReLU (x : LayerExpr)
  | dense (units : Nat) (act : Act) (x : LayerExpr)
  | add (x y : LayerExpr)
  deriving DecidableEq, Repr

/-- Output shape of a layer expression, following Keras:
`padding='same'` convolution maps spatial dimension `d` to `⌈d / strides⌉`,
`padding='valid'` to `(d - ksize) / strides + 1`; `UpSampling2D(size=2)`
doubles both spatial dimensions; `Dense(u)` replaces the last axis by `u`;
`Add` requires equal input shapes. -/
def outShape : LayerExpr → Option Shape3
  | .input s => some s
  | .conv2d f k st same _ x =>
    match outShape x with
    | some s =>
      if st = 0 then none
      else if same then some ⟨(s.h + st - 1) / st, (s.w + st - 1) / st, f⟩
      else some ⟨(s.h - k) / st + 1, (s.w - k) / st + 1, f⟩
    | none => none
  | .activation _ x => outShape x
  | .batchNorm x => outShape x
  | .upSampling2 x =>
    match outShape x with
    | some s => some ⟨2 * s.h, 2 * s.w, s.c⟩
    | none => none
  | .leakyReLU x => outShape x
  | .dense u _ x =>
    match outShape x with
    | some s => some ⟨s.h, s.w, u⟩
    | none => none
  | .add x y =>
    match outShape x, outShape y with
    | some sx, some sy => if sx = sy then some sx else none
    | _, _ => none

/-- Number of `UpSampling2D` layers in an expression. -/
def countUpSampling : LayerExpr → Nat
  | .input _ => 0
  | .conv2d _ _ _ _ _ x => countUpSampling x
  | .activation _ x => countUpSampling x
  | .batchNorm x => countUpSampling x
  | .upSampling2 x => countUpSampling x + 1
  | .leakyReLU x => countUpSampling x
  | .dense _ _ x => countUpSampling x
  | .add x y => countUpSampling x + countUpSampling y

/-- Number of convolution layers with `strides = 2`. -/
def countConvStride2 : LayerExpr → Nat
  | .input _ => 0
  | .conv2d _ _ st _ _ x => countConvStride2 x + (if st = 2 then 1 else 0)
  | .activation _ x => countConvStride2 x
  | .batchNorm x => countConvStride2 x
  | .upSampling2 x => countConvStride2 x
  | .leakyReLU x => countConvStride2 x
  | .dense _ _ x => countConvStride2 x
  | .add x y => countConvStride2 x + countConvStride2 y

/-- Number of `Add` (skip-connection) layers along the main branch of the
network (for `Add` we follow the first, non-skip argument; the layer
expression is a tree, so following one branch visits each layer object of
the underlying Keras graph exactly once). -/
def spineAddCount : LayerExpr → Nat
  | .input _ => 0
  | .conv2d _ _ _ _ _ x => spineAddCount x
  | .activation _ x => spineAddCount x
  | .batchNorm x => spineAddCount x
  | .upSampling2 x => spineAddCount x
  | .leakyReLU x => spineAddCount x
  | .dense _ _ x => spineAddCount x
  | .add x _ => spineAddCount x + 1

/-- Every convolution layer in the expression has `strides = 1` and
`padding = 'same'`. -/
def allConvStride1Same : LayerExpr → Bool
  | .input _ => true
  | .conv2d _ _ st same _ x => (st == 1) && same && allConvStride1Same x
  | .activation _ x => allConvStride1Same x
  | .batchNorm x => allConvStride1Same x
  | .upSampling2 x => allConvStride1Same x
  | .leakyReLU x => allConvStride1Same x
  | .dense _ _ x => allConvStride1Same x
  | .add x y => allConvStride1Same x && allConvStride1Same y

/-- Activation applied at the output node of the expression, when the output
node is a layer carrying an activation. -/
def finalAct : LayerExpr → Option Act
  | .conv2d _ _ _ _ a _ => some a
  | .activation a _ => some a
  | .dense _ a _ => some a
  | _ => none

/-! ### Constants fixed in `SRGAN.__init__` (lines 22-55) -/

def channels : Nat := 3
def lr_height : Nat := 64
def lr_width : Nat := 64
def lr_shape : Shape3 := ⟨lr_height, lr_width, channels⟩
def hr_height : Nat := lr_height * 4
def hr_width : Nat := lr_width * 4
def hr_shape : Shape3 := ⟨hr_height, hr_width, channels⟩
def n_residual_blocks : Nat := 16
def gf : Nat := 64
def df : Nat := 64

/-- `patch = int(self.hr_height / 2 ** 4)` (line 50). -/
def patch : Nat := hr_height / 2 ^ 4

/-- `self.disc_patch = (patch, patch, 1)` (line 51). -/
def disc_patch : Nat × Nat × Nat := (patch, patch, 1)

/-! ### `build_generator` (lines 108-151) -/

/-- `residual_block` inside `build_generator` (lines 110-118). -/
def residual_block (layer_input : LayerExpr) (filters : Nat) : LayerExpr :=
  let d := LayerExpr.conv2d filters 3 1 true Act.linear layer_input
  let d := LayerExpr.activation Act.relu d
  let d := LayerExpr.batchNorm d
  let d := LayerExpr.conv2d filters 3 1 true Act.linear d
  let d := LayerExpr.batchNorm d
  LayerExpr.add d layer_input

/-- `deconv2d` inside `build_generator` (lines 120-125). -/
def deconv2d (layer_input : LayerExpr) : LayerExpr :=
  let u := LayerExpr.upSampling2 layer_input
  let u := LayerExpr.conv2d 256 3 1 true Act.linear u
  LayerExpr.activation Act.relu u

/-- The pre-residual feature map `c1` (lines 131-132). -/
def genC1 : LayerExpr :=
  LayerExpr.activation Act.relu
    (LayerExpr.conv2d 64 9 1 true Act.linear (LayerExpr.input lr_shape))

/-- `n` further applications of `residual_block` with `gf` filters. -/
def resChain : Nat → LayerExpr → LayerExpr
  | 0, r => r
  | n + 1, r => resChain n (residual_block r gf)

/-- The generator network (lines 127-151): pre-residual block, 16 residual
blocks, post-residual block with global skip to `c1`, two upsampling stages,
final 3-channel `tanh` convolution. -/
def build_generator : LayerExpr :=
  let c1 := genC1
  let r := residual_block c1 gf
  let r := resChain (n_residual_blocks - 1) r
  let c2 := LayerExpr.conv2d 64 3 1 true Act.linear r
  let c2 := LayerExpr.batchNorm c2
  let c2 := LayerExpr.add c2 c1
  let u1 := deconv2d c2
  let u2 := deconv2d u1
  LayerExpr.conv2d channels 9 1 true Act.tanh u2

/-! ### `build_discriminator` (lines 153-179) -/

/-- `d_block` inside `build_discriminator` (lines 155-161). -/
def d_block (layer_input : LayerExpr) (filters strides : Nat) (bn : Bool) : LayerExpr :=
  let d := LayerExpr.conv2d filters 3 strides true Act.linear layer_input
  let d := LayerExpr.leakyReLU d
  if bn then LayerExpr.batchNorm d else d

/-- The discriminator network (lines 163-179): eight `d_block`s alternating
strides 1 and 2, then per-position `Dense` layers ending in a sigmoid unit. -/
def build_discriminator : LayerExpr :=
  let d0 := LayerExpr.input hr_shape
  let d1 := d_block d0 df 1 false
  let d2 := d_block d1 df 2 true
  let d3 := d_block d2 (df * 2) 1 true
  let d4 := d_block d3 (df * 2) 2 true
  let d5 := d_block d4 (df * 4) 1 true
  let d6 := d_block d5 (df * 4) 2 true
  let d7 := d_block d6 (df * 8) 1 true
  let d8 := d_block d7 (df * 8) 2 true
  let d9 := LayerExpr.dense (df * 16) Act.linear d8
  let d10 := LayerExpr.leakyReLU d9
  LayerExpr.dense 1 Act.sigmoid d10

/-! ### Compile configuration of the combined model (lines 68-87) -/

/-- Loss functions named in the `compile` calls. -/
inductive LossFn where
  | binary_crossentropy
  | mse
  deriving DecidableEq, Repr

/-- The two outputs of the combined model. -/
inductive CombOut where
  | validity
  | fake_features
  deriving DecidableEq, Repr

/-- Output list of `self.combined = Model([img_lr, img_hr], [validity, fake_features])`
(line 83), in order. -/
def combined_outputs : List CombOut := [CombOut.validity, CombOut.fake_features]

/-- `loss=['binary_crossentropy', 'mse']` in `self.combined.compile` (line 85). -/
def combined_losses : List LossFn := [LossFn.binary_crossentropy, LossFn.mse]

/-- `loss_weights=[1e-3, 1]` in `self.combined.compile` (line 86). -/
def combined_loss_weights : List ℚ := [1e-3, 1]

/-- Keras total training objective of a multi-output model: the weighted sum
of the per-output loss values. -/
def totalLoss (weights lossVals : List ℚ) : ℚ :=
  (List.zipWith (fun w l => w * l) weights lossVals).sum

/-! ### Trainability bookkeeping in `__init__` (lines 35-87) -/

/-- The three networks whose weights exist in the script. -/
inductive Net where
  | vgg
  | discriminator
  | generator
  deriving DecidableEq, Repr

/-- The `trainable` flags of the three networks at some point of `__init__`. -/
structure Flags where
  vggTrainable : Bool
  discTrainable : Bool
  genTrainable : Bool
  deriving DecidableEq, Repr

def Flags.get (s : Flags) : Net → Bool
  | Net.vgg => s.vggTrainable
  | Net.discriminator => s.discTrainable
  | Net.generator => s.genTrainable

/-- A compiled Keras model: the networks whose weights it contains, and the
`trainable` flags captured when `compile` was called.  `train_on_batch` on
the model updates exactly the contained networks whose flag was `True` at
compile time. -/
structure CompiledModel where
  components : List Net
  flagsAtCompile : Flags
  deriving DecidableEq, Repr

/-- The networks whose weights a `train_on_batch` call on this model updates. -/
def CompiledModel.updates (m : CompiledModel) : List Net :=
  m.components.filter m.flagsAtCompile.get

/-- Keras networks are created with `trainable = True`. -/
def initFlags : Flags := ⟨true, true, true⟩

/-- `self.vgg.trainable = False` (line 38) runs before `self.vgg.compile`
(line 40). -/
def flagsAtVggCompile : Flags := { initFlags with vggTrainable := false }

def vggModel : CompiledModel := ⟨[Net.vgg], flagsAtVggCompile⟩

/-- `self.discriminator.compile` (line 59) runs before
`self.discriminator.trainable = False` (line 78), so the flags are unchanged. -/
def flagsAtDiscCompile : Flags := flagsAtVggCompile

def discriminatorModel : CompiledModel := ⟨[Net.discriminator], flagsAtDiscCompile⟩

/-- `self.discriminator.trainable = False` (line 78) runs before
`self.combined.compile` (line 85). -/
def flagsAtCombinedCompile : Flags := { flagsAtDiscCompile with discTrainable := false }

/-- The combined model wires `generator`, `vgg` and `discriminator`
(lines 72-83). -/
def combinedModel : CompiledModel :=
  ⟨[Net.generator, Net.vgg, Net.discriminator], flagsAtCombinedCompile⟩

/-- The `train_on_batch` calls of one epoch of `train`, by model: two on the
discriminator (lines 204-205), one on the combined model (line 222). -/
def trainStepModels : List CompiledModel :=
  [discriminatorModel, discriminatorModel, combinedModel]

/-! ### The training loop `train` (lines 181-232) -/

/-- One batch returned by `DataLoader.load_data`: paired high- and
low-resolution image arrays. -/
structure Batch (α : Type) where
  hr : α
  lr : α
  deriving DecidableEq, Repr

/-- A constant numpy target array: its shape and the constant fill value
(`np.ones` fills 1, `np.zeros` fills 0). -/
structure TargetArr where
  shape : List Nat
  fill : ℚ
  deriving DecidableEq, Repr

def npOnes (s : List Nat) : TargetArr := ⟨s, 1⟩

def npZeros (s : List Nat) : TargetArr := ⟨s, 0⟩

/-- `(batch_size,) + self.disc_patch` (lines 200-201, 216). -/
def patchTargetShape (batch_size : Nat) : List Nat :=
  [batch_size, patch, patch, 1]

/-- `d_loss = 0.5 * np.add(d_loss_real, d_loss_fake)` (line 206): the
elementwise average of the two result arrays. -/
def d_loss (d_loss_real d_loss_fake : Nat → ℚ) : Nat → ℚ :=
  fun i => 0.5 * (d_loss_real i + d_loss_fake i)

/-- A `train_on_batch` call issued by `train`, with its arguments. -/
inductive TrainCall (α β : Type) where
  | discTrain (imgs : α) (target : TargetArr)
  | combinedTrain (imgs_lr imgs_hr : α) (validTarget : TargetArr) (features : β)
  deriving DecidableEq, Repr

/-- Record of one epoch: the ordered `train_on_batch` calls, whether
`sample_images_new` ran (line 229-230), and the weight file written
(lines 231-232), if any. -/
structure EpochLog (α β : Type) where
  calls : List (TrainCall α β)
  sampled : Bool
  saveFile : Option String
  deriving DecidableEq, Repr

/-- The body of the `for epoch in range(epochs)` loop of `train`
(lines 184-232), with the external collaborators as parameters: `loader i`
is the batch returned by the `i`-th call of `self.data_loader.load_data`,
`generator_predict` is `self.generator.predict`, `vgg_predict` is
`self.vgg.predict`.  Arguments after `batch_size`: remaining epochs, current
epoch, next loader-call index, current `sample_interval` variable. -/
def trainLoop {α β : Type} (loader : Nat → Batch α) (generator_predict : α → α)
    (vgg_predict : α → β) (batch_size : Nat) :
    Nat → Nat → Nat → Nat → List (EpochLog α β)
  | 0, _, _, _ => []
  | n + 1, epoch, idx, sample_interval =>
    let sample_interval := if epoch > 30 then 10 else sample_interval
    let sample_interval := if epoch > 100 then 50 else sample_interval
    let b := loader idx
    let fake_hr := generator_predict b.lr
    let valid := npOnes (patchTargetShape batch_size)
    let fake := npZeros (patchTargetShape batch_size)
    let b2 := loader (idx + 1)
    let valid2 := npOnes (patchTargetShape batch_size)
    let image_features := vgg_predict b2.hr
    { calls := [TrainCall.discTrain b.hr valid, TrainCall.discTrain fake_hr fake,
        TrainCall.combinedTrain b2.lr b2.hr valid2 image_features],
      sampled := epoch % sample_interval == 0,
      saveFile := if epoch % 500 == 0 && epoch > 1 then
        some ("./saved_model/" ++ toString epoch ++ ".h5") else none } ::
    trainLoop loader generator_predict vgg_predict batch_size n (epoch + 1) (idx + 2)
      sample_interval

/-- `SRGAN.train(epochs, batch_size, sample_interval)` (lines 181-232) as
the list of per-epoch logs. -/
def train {α β : Type} (loader : Nat → Batch α) (generator_predict : α → α)
    (vgg_predict : α → β) (epochs batch_size sample_interval : Nat) :
    List (EpochLog α β) :=
  trainLoop loader generator_predict vgg_predict batch_size epochs 0 0 sample_interval

/-- The value the `sample_interval` variable has inside the body of epoch
`epoch`, given its value `si` on entry to that iteration (lines 185-188). -/
def effInterval (epoch si : Nat) : Nat :=
  if epoch > 100 then 50 else if epoch > 30 then 10 else si

/-- The per-epoch sampling interval as the claim states it: the
`sample_interval` argument up to epoch 30, then 10 up to epoch 100, then 50. -/
def claimedInterval (epoch si₀ : Nat) : Nat :=
  if epoch ≤ 30 then si₀ else if epoch ≤ 100 then 10 else 50

/-! ### Numeric pixel arithmetic in `test_images` (lines 234-280) -/

/-- `astype(np.uint8)` of a nonnegative float value: truncation toward zero
(floor on nonnegatives) and reduction mod 256. -/
def npCastUint8 (x : ℚ) : Nat := (Rat.floor x).toNat % 256

/-- The display rescaling `0.5 * x + 0.5` (lines 240-242 and 292-294). -/
def displayRescale (x : ℚ) : ℚ := 0.5 * x + 0.5

/-- The uint8 rescaling `(x + 1) * 127.5` (lines 265-266). -/
def uint8Rescale (x : ℚ) : ℚ := (x + 1) * 127.5

/-- Pointwise uint8 conversion of an image (lines 265-266). -/
def toUint8Img {Pos : Type} (img : Pos → ℚ) : Pos → Nat :=
  fun p => npCastUint8 (uint8Rescale (img p))

/-- The PSNR/SSIM loop of `test_images` (lines 261-274): for each
(real, generated) pair, both images are converted to uint8 and one PSNR and
one SSIM value are appended; the metric functions themselves (skimage) are
parameters. -/
def metricsLoop {Pos : Type} (psnrF ssimF : (Pos → Nat) → (Pos → Nat) → ℚ)
    (pairs : List ((Pos → ℚ) × (Pos → ℚ))) : List ℚ × List ℚ :=
  pairs.foldl (fun acc pr =>
    let img_real := toUint8Img pr.1
    let img_generated := toUint8Img pr.2
    (acc.1 ++ [psnrF img_real img_generated], acc.2 ++ [ssimF img_real img_generated]))
    ([], [])

/-- `np.mean` of a list of rationals. -/
def npMean (xs : List ℚ) : ℚ := xs.sum / xs.length

/-- The metric part of `test_images` (lines 240-278): `imgs_hr` and
`fake_hr` are first display-rescaled (lines 241-242), the loop computes the
per-pair metric lists over their zip (line 263), and the reported averages
are their `np.mean`s (lines 277-278). -/
def test_images_metrics {Pos : Type} (psnrF ssimF : (Pos → Nat) → (Pos → Nat) → ℚ)
    (imgs_hr fake_hr : List (Pos → ℚ)) : ℚ × ℚ :=
  let imgs_hr := imgs_hr.map (fun img => fun p => displayRescale (img p))
  let fake_hr := fake_hr.map (fun img => fun p => displayRescale (img p))
  let vals := metricsLoop psnrF ssimF (imgs_hr.zip fake_hr)
  (npMean vals.1, npMean vals.2)

/-! ### Activation semantics over ℝ -/

/-- Pointwise real semantics of the activation functions (`None` is the
identity). -/
noncomputable def actFun : Act → ℝ → ℝ
  | Act.linear => fun x => x
  | Act.relu => fun x => max 0 x
  | Act.tanh => Real.tanh
  | Act.sigmoid => fun x => 1 / (1 + Real.exp (-x))

/-- The display rescaling `0.5 * x + 0.5` applied to real-valued pixels
(lines 240-242, 292-294). -/
noncomputable def displayRescaleR (x : ℝ) : ℝ := 0.5 * x + 0.5

/-- Shape of the input leaf reached by following the main branch. -/
def spineInput : LayerExpr → Option Shape3
  | .input s => some s
  | .conv2d _ _ _ _ _ x => spineInput x
  | .activation _ x => spineInput x
  | .batchNorm x => spineInput x
  | .upSampling2 x => spineInput x
  | .leakyReLU x => spineInput x
  | .dense _ _ x => spineInput x
  | .add x _ => spineInput x

/-! ## Helper lemmas -/

theorem tanh_le_one (x : ℝ) : Real.tanh x ≤ 1 := by
  rw [Real.tanh_eq_sinh_div_cosh]
  exact le_of_lt ((div_lt_one (Real.cosh_pos x)).mpr (Real.sinh_lt_cosh x))

theorem neg_one_le_tanh (x : ℝ) : -1 ≤ Real.tanh x := by
  rw [Real.tanh_eq_sinh_div_cosh]
  rw [le_div_iff₀ (Real.cosh_pos x)]
  have h := Real.cosh_add_sinh x
  have hx := (Real.exp_pos x).le
  linarith

theorem sigmoid_bounds (x : ℝ) : 0 ≤ actFun Act.sigmoid x ∧ actFun Act.sigmoid x ≤ 1 := by
  have hp := Real.exp_pos (-x)
  constructor
  · simp only [actFun]
    positivity
  · simp only [actFun]
    rw [div_le_one (by linarith)]
    linarith

/-- The value of the `sample_interval` variable propagated to a later epoch
is absorbed: recomputing from the original value gives the same interval. -/
theorem effInterval_absorb {epoch epoch' : Nat} (si : Nat) (h : epoch < epoch') :
    effInterval epoch' (effInterval epoch si) = effInterval epoch' si := by
  unfold effInterval
  split_ifs <;> omega

theorem effInterval_eq_claimedInterval (e si : Nat) :
    effInterval e si = claimedInterval e si := by
  unfold effInterval claimedInterval
  split_ifs <;> omega

/-- Closed form of the per-epoch log produced by `trainLoop`. -/
theorem trainLoop_getElem {α β : Type} (loader : Nat → Batch α)
    (generator_predict : α → α) (vgg_predict : α → β) (batch_size : Nat) :
    ∀ (n epoch idx si i : Nat), i < n →
      (trainLoop loader generator_predict vgg_predict batch_size n epoch idx si)[i]? =
        some
          { calls :=
              [TrainCall.discTrain (loader (idx + 2 * i)).hr
                  (npOnes (patchTargetShape batch_size)),
                TrainCall.discTrain (generator_predict (loader (idx + 2 * i)).lr)
                  (npZeros (patchTargetShape batch_size)),
                TrainCall.combinedTrain (loader (idx + 2 * i + 1)).lr
                  (loader (idx + 2 * i + 1)).hr (npOnes (patchTargetShape batch_size))
                  (vgg_predict (loader (idx + 2 * i + 1)).hr)],
            sampled := (epoch + i) % effInterval (epoch + i) si == 0,
            saveFile :=
              if (epoch + i) % 500 == 0 && (epoch + i) > 1 then
                some ("./saved_model/" ++ toString (epoch + i) ++ ".h5")
              else none } := by
  intro n
  induction n with
  | zero =>
    intro epoch idx si i h
    exact absurd h (Nat.not_lt_zero i)
  | succ n ih =>
    intro epoch idx si i h
    cases i with
    | zero =>
      simp only [trainLoop, List.getElem?_cons_zero]
      rfl
    | succ i =>
      have key := ih (epoch + 1) (idx + 2) (effInterval epoch si) i (Nat.lt_of_succ_lt_succ h)
      rw [effInterval_absorb si (show epoch < epoch + 1 + i by omega)] at key
      rw [show epoch + 1 + i = epoch + (i + 1) from by omega] at key
      rw [show idx + 2 + 2 * i = idx + 2 * (i + 1) from by omega] at key
      simpa only [trainLoop, List.getElem?_cons_succ, effInterval] using key

end SRGAN

namespace SRGAN

/-! ## Claim theorems -/

/-- C1: the high-resolution shape is exactly 4 times the low-resolution shape
in each spatial dimension (`hr_shape = (256, 256, 3)`, `lr_shape = (64, 64, 3)`),
and the generator maps an input of the low-resolution shape to an output of
the high-resolution shape through exactly two 2x upsampling stages, every
convolution being stride-1 with same padding. -/
theorem generator_shape_4x :
    hr_shape = ⟨256, 256, 3⟩ ∧ lr_shape = ⟨64, 64, 3⟩ ∧
    hr_shape.h = 4 * lr_shape.h ∧ hr_shape.w = 4 * lr_shape.w ∧
    hr_shape.c = lr_shape.c ∧
    spineInput build_generator = some lr_shape ∧
    outShape build_generator = some hr_shape ∧
    countUpSampling build_generator = 2 ∧
    allConvStride1Same build_generator = true := by
  refine ⟨rfl, rfl, rfl, rfl, rfl, rfl, ?_, ?_, ?_⟩ <;> decide

/-- C3: the combined model's objective is the weighted sum of a
binary-cross-entropy adversarial loss with weight `1e-3` and a mean-squared
perceptual loss with weight `1`, paired with the outputs in the order
`[validity, fake_features]`. -/
theorem combined_objective :
    combined_outputs = [CombOut.validity, CombOut.fake_features] ∧
    combined_losses = [LossFn.binary_crossentropy, LossFn.mse] ∧
    combined_loss_weights = [1e-3, 1] ∧
    ∀ bceLoss mseLoss : ℚ,
      totalLoss combined_loss_weights [bceLoss, mseLoss] =
        1e-3 * bceLoss + 1 * mseLoss := by
  refine ⟨rfl, rfl, rfl, fun bceLoss mseLoss => ?_⟩
  simp [totalLoss, combined_loss_weights]

/-- C4: the VGG feature extractor is frozen before its compilation, so no
training step updates it, and the combined model — compiled after
`discriminator.trainable = False` — updates only the generator's weights. -/
theorem frozen_vgg_and_discriminator :
    vggModel.updates = [] ∧
    discriminatorModel.updates = [Net.discriminator] ∧
    combinedModel.updates = [Net.generator] ∧
    trainStepModels.map CompiledModel.updates =
      [[Net.discriminator], [Net.discriminator], [Net.generator]] := by
  refine ⟨?_, ?_, ?_, ?_⟩ <;> decide

/-- C5: the discriminator maps the high-resolution shape (256, 256, 3) to an
output of shape (16, 16, 1), equal to `disc_patch = (hr_height / 2^4,
hr_height / 2^4, 1)`, through exactly four stride-2 convolutions followed by
per-position `Dense` layers; the final activation is a sigmoid, whose values
lie in [0, 1]; the ones/zeros targets of `train` have shape
`(batch_size, 16, 16, 1)`. -/
theorem discriminator_patch :
    spineInput build_discriminator = some hr_shape ∧
    hr_shape = ⟨256, 256, 3⟩ ∧
    outShape build_discriminator = some ⟨16, 16, 1⟩ ∧
    disc_patch = (hr_height / 2 ^ 4, hr_height / 2 ^ 4, 1) ∧
    disc_patch = (16, 16, 1) ∧
    countConvStride2 build_discriminator = 4 ∧
    finalAct build_discriminator = some Act.sigmoid ∧
    (∀ batch_size : Nat,
      npOnes (patchTargetShape batch_size) = ⟨[batch_size, 16, 16, 1], 1⟩ ∧
      npZeros (patchTargetShape batch_size) = ⟨[batch_size, 16, 16, 1], 0⟩) ∧
    ∀ x : ℝ, 0 ≤ actFun Act.sigmoid x ∧ actFun Act.sigmoid x ≤ 1 := by
  refine ⟨rfl, rfl, by decide, rfl, by decide, by decide, rfl,
    fun batch_size => ⟨rfl, rfl⟩, sigmoid_bounds⟩

/-- C6: the generator contains exactly 16 residual blocks
(`n_residual_blocks = 16`); each residual block adds its own input to the
result of its convolution/normalization layers, and a global skip connection
adds the pre-residual feature map `c1` to the post-residual feature map
before upsampling. -/
theorem generator_residual_structure :
    n_residual_blocks = 16 ∧
    (∀ (layer_input : LayerExpr) (filters : Nat),
      ∃ d, residual_block layer_input filters = LayerExpr.add d layer_input) ∧
    (∃ c2, build_generator =
        LayerExpr.conv2d channels 9 1 true Act.tanh
          (deconv2d (deconv2d (LayerExpr.add c2 genC1))) ∧
      c2 = LayerExpr.batchNorm
        (LayerExpr.conv2d 64 3 1 true Act.linear (resChain n_residual_blocks genC1))) ∧
    spineAddCount build_generator = n_residual_blocks + 1 := by
  refine ⟨rfl, fun layer_input filters => ⟨_, rfl⟩, ⟨_, rfl, rfl⟩, by decide⟩

/-- C9: the generator's output layer is a `tanh` convolution; `tanh` values
lie in [-1, 1], so the display rescaling `0.5 * x + 0.5` of `test_images`
and `sample_images_new` maps generated pixels into [0, 1]. -/
theorem generator_output_range :
    finalAct build_generator = some Act.tanh ∧
    ∀ x : ℝ, -1 ≤ actFun Act.tanh x ∧ actFun Act.tanh x ≤ 1 ∧
      0 ≤ displayRescaleR (actFun Act.tanh x) ∧
      displayRescaleR (actFun Act.tanh x) ≤ 1 := by
  refine ⟨rfl, fun x => ?_⟩
  have h1 : -1 ≤ Real.tanh x := neg_one_le_tanh x
  have h2 : Real.tanh x ≤ 1 := tanh_le_one x
  refine ⟨h1, h2, ?_, ?_⟩ <;>
    · simp only [actFun, displayRescaleR]
      nlinarith

end SRGAN

namespace SRGAN

/-- C2: in every epoch of `train`, the operations occur in order: a batch is
pulled, the generator produces fakes from its low-resolution half, the
discriminator is trained on the real images against all-ones patch targets
and then on the fakes against all-zeros patch targets (`d_loss` being the
elementwise average of the two results), then a fresh batch is pulled and
the combined model is trained on it with all-ones validity targets and the
VGG features of its real high-resolution images. -/
theorem train_epoch_order {α β : Type} (loader : Nat → Batch α)
    (generator_predict : α → α) (vgg_predict : α → β)
    (epochs batch_size sample_interval e : Nat) (he : e < epochs) :
    ((train loader generator_predict vgg_predict epochs batch_size
          sample_interval)[e]?).map EpochLog.calls =
      some
        [TrainCall.discTrain (loader (2 * e)).hr (npOnes (patchTargetShape batch_size)),
          TrainCall.discTrain (generator_predict (loader (2 * e)).lr)
            (npZeros (patchTargetShape batch_size)),
          TrainCall.combinedTrain (loader (2 * e + 1)).lr (loader (2 * e + 1)).hr
            (npOnes (patchTargetShape batch_size))
            (vgg_predict (loader (2 * e + 1)).hr)] ∧
    ∀ (d_loss_real d_loss_fake : Nat → ℚ) (j : Nat),
      d_loss d_loss_real d_loss_fake j = 0.5 * (d_loss_real j + d_loss_fake j) := by
  constructor
  · rw [train, trainLoop_getElem loader generator_predict vgg_predict batch_size
      epochs 0 0 sample_interval e he]
    simp
  · intro d_loss_real d_loss_fake j
    rfl

/-- Witness for C2 at a concrete instantiation: epoch 3 of a 10-epoch run
with `loader i = (hr := 100 + i, lr := 200 + i)`. -/
theorem train_epoch_order_witness :
    3 < 10 ∧
    ((train (fun i => (⟨100 + i, 200 + i⟩ : Batch Nat)) (fun x => x + 1) (fun x => x * 3)
        10 2 5)[3]?).map EpochLog.calls =
      some
        [TrainCall.discTrain 106 (npOnes (patchTargetShape 2)),
          TrainCall.discTrain 207 (npZeros (patchTargetShape 2)),
          TrainCall.combinedTrain 207 107 (npOnes (patchTargetShape 2)) 321] ∧
    d_loss (fun _ => 1) (fun _ => 0) 0 = 0.5 * (1 + 0) :=
  have h := train_epoch_order (fun i => (⟨100 + i, 200 + i⟩ : Batch Nat)) (fun x => x + 1)
    (fun x => x * 3) 10 2 5 3 (by decide)
  ⟨by decide, h.1.trans rfl, h.2 (fun _ => 1) (fun _ => 0) 0⟩

/-- C10: sample images are saved at epoch `e` exactly when `e` is divisible
by the current interval — the `sample_interval` argument for `e ≤ 30`, 10
for `31 ≤ e ≤ 100`, 50 for `e > 100` — so epoch 0 always samples; generator
weights go to `./saved_model/<epoch>.h5` exactly when `e` is divisible by
500 and `e > 1`, so epoch 0 never saves weights. -/
theorem sampling_schedule {α β : Type} (loader : Nat → Batch α)
    (generator_predict : α → α) (vgg_predict : α → β)
    (epochs batch_size sample_interval e : Nat) (he : e < epochs) :
    ((train loader generator_predict vgg_predict epochs batch_size
          sample_interval)[e]?).map (fun l => (l.sampled, l.saveFile)) =
      some ((e % claimedInterval e sample_interval == 0),
        if e % 500 == 0 && e > 1 then some ("./saved_model/" ++ toString e ++ ".h5")
        else none) ∧
    ((0 % claimedInterval 0 sample_interval == 0) = true ∧
      (0 % 500 == 0 && 0 > 1) = false) := by
  constructor
  · rw [train, trainLoop_getElem loader generator_predict vgg_predict batch_size
      epochs 0 0 sample_interval e he]
    simp [effInterval_eq_claimedInterval]
  · constructor
    · simp [Nat.zero_mod]
    · decide

/-- Witness for C10: epoch 40 of a 120-epoch run with default-like
`sample_interval = 5`; the effective interval is then 10. -/
theorem sampling_schedule_witness :
    40 < 120 ∧
    ((train (fun i => (⟨100 + i, 200 + i⟩ : Batch Nat)) (fun x => x + 1) (fun x => x * 3)
        120 2 5)[40]?).map (fun l => (l.sampled, l.saveFile)) =
      some ((40 % claimedInterval 40 5 == 0),
        if 40 % 500 == 0 && 40 > 1 then some ("./saved_model/" ++ toString 40 ++ ".h5")
        else none) ∧
    claimedInterval 40 5 = 10 :=
  have h := sampling_schedule (fun i => (⟨100 + i, 200 + i⟩ : Batch Nat)) (fun x => x + 1)
    (fun x => x * 3) 120 2 5 40 (by decide)
  ⟨by decide, h.1, by decide⟩

end SRGAN

namespace SRGAN

/-- The accumulating metric loop equals a `map` over the pairs. -/
theorem metricsLoop_eq {Pos : Type} (psnrF ssimF : (Pos → Nat) → (Pos → Nat) → ℚ)
    (pairs : List ((Pos → ℚ) × (Pos → ℚ))) :
    metricsLoop psnrF ssimF pairs =
      (pairs.map (fun pr => psnrF (toUint8Img pr.1) (toUint8Img pr.2)),
        pairs.map (fun pr => ssimF (toUint8Img pr.1) (toUint8Img pr.2))) := by
  have main : ∀ (l : List ((Pos → ℚ) × (Pos → ℚ))) (a b : List ℚ),
      List.foldl (fun acc pr =>
          (acc.1 ++ [psnrF (toUint8Img pr.1) (toUint8Img pr.2)],
            acc.2 ++ [ssimF (toUint8Img pr.1) (toUint8Img pr.2)])) (a, b) l =
        (a ++ l.map (fun pr => psnrF (toUint8Img pr.1) (toUint8Img pr.2)),
          b ++ l.map (fun pr => ssimF (toUint8Img pr.1) (toUint8Img pr.2))) := by
    intro l
    induction l with
    | nil => intro a b; simp
    | cons pr rest ih =>
      intro a b
      simp only [List.foldl_cons, List.map_cons]
      rw [ih]
      simp
  simpa [metricsLoop] using main pairs [] []

/-- C7: for every batch evaluated by `test_images`, one PSNR and one SSIM
value are computed per (real, generated) pair after converting both images
to uint8, and the reported averages are the arithmetic means
(`sum / length`) of the per-pair values. -/
theorem test_images_metrics_mean {Pos : Type}
    (psnrF ssimF : (Pos → Nat) → (Pos → Nat) → ℚ)
    (imgs_hr fake_hr : List (Pos → ℚ)) :
    test_images_metrics psnrF ssimF imgs_hr fake_hr =
      (npMean
        (((imgs_hr.map (fun img => fun p => displayRescale (img p))).zip
            (fake_hr.map (fun img => fun p => displayRescale (img p)))).map
          (fun pr => psnrF (toUint8Img pr.1) (toUint8Img pr.2))),
        npMean
        (((imgs_hr.map (fun img => fun p => displayRescale (img p))).zip
            (fake_hr.map (fun img => fun p => displayRescale (img p)))).map
          (fun pr => ssimF (toUint8Img pr.1) (toUint8Img pr.2)))) ∧
    ∀ xs : List ℚ, npMean xs = xs.sum / xs.length := by
  constructor
  · unfold test_images_metrics
    simp only [metricsLoop_eq]
  · intro xs
    rfl

/-- C8: the images handed to the PSNR/SSIM computation are rescaled twice,
by `x -> 0.5*x + 0.5` and then `y -> (y + 1) * 127.5`, whose composition is
`x -> 63.75*x + 191.25`; for pixels in [-1, 1] the resulting uint8 values
lie in [127, 255], never in the lower half of the 0-255 range. -/
theorem double_rescale (x : ℚ) :
    uint8Rescale (displayRescale x) = 63.75 * x + 191.25 ∧
    (-1 ≤ x → x ≤ 1 →
      127 ≤ npCastUint8 (uint8Rescale (displayRescale x)) ∧
      npCastUint8 (uint8Rescale (displayRescale x)) ≤ 255) := by
  have hcomp : uint8Rescale (displayRescale x) = 63.75 * x + 191.25 := by
    unfold uint8Rescale displayRescale
    ring
  refine ⟨hcomp, fun h1 h2 => ?_⟩
  have hlo : (127 : ℚ) ≤ uint8Rescale (displayRescale x) := by
    rw [hcomp]; nlinarith
  have hhi : uint8Rescale (displayRescale x) ≤ 255 := by
    rw [hcomp]; nlinarith
  have f1 : (127 : ℤ) ≤ Rat.floor (uint8Rescale (displayRescale x)) :=
    Rat.le_floor.mpr (by exact_mod_cast hlo)
  have f2 : Rat.floor (uint8Rescale (displayRescale x)) ≤ 255 := by
    have hf : ((Rat.floor (uint8Rescale (displayRescale x)) : ℤ) : ℚ) ≤
        uint8Rescale (displayRescale x) :=
      Rat.le_floor.mp le_rfl
    have : ((Rat.floor (uint8Rescale (displayRescale x)) : ℤ) : ℚ) ≤ 255 :=
      le_trans hf hhi
    exact_mod_cast this
  unfold npCastUint8
  omega

/-- Witness for C8 at `x = 0`: the doubly rescaled value is 191.25 and its
uint8 cast lies in [127, 255]. -/
theorem double_rescale_witness :
    (-1 : ℚ) ≤ 0 ∧ (0 : ℚ) ≤ 1 ∧
    uint8Rescale (displayRescale 0) = 63.75 * 0 + 191.25 ∧
    127 ≤ npCastUint8 (uint8Rescale (displayRescale 0)) ∧
    npCastUint8 (uint8Rescale (displayRescale 0)) ≤ 255 :=
  have h := double_rescale 0
  ⟨by decide, by decide, h.1, (h.2 (by decide) (by decide)).1, (h.2 (by decide) (by decide)).2⟩

end SRGAN
